import Mathlib

/-!
Formal model of the ensemble price-forecasting engine of
`src/lib/predictionModels.ts`.

Prices are real numbers.  The global `Math.random()` stream is made
explicit: every model receives a function `rand : ℕ → ℝ` whose value
`rand i` is the draw consumed in the day-`i` iteration of that model's
loop; the ensemble passes each component model an offset view of one
shared stream, in the order the source consumes it.  Each model's loop
`prediction = lastPrice * (1 + ...); predictions.push(prediction);
lastPrice = prediction` is rendered by `autoreg` / `autoregPath`.
The sentiment model's two modes are the source's `useSentimentAPI`
flag and `sentimentImpact` multiplier, passed as parameters (the
surrounding application substitutes the sentiment model inside the
ensemble's model list; here the ensemble takes the flag directly).
-/

/-- Output record of the ensemble for one forecast day
(interface `PredictionResult`). -/
structure PredictionResult where
  predicted : ℝ
  upperBound : ℝ
  lowerBound : ℝ
  confidence : ℝ

instance : Inhabited PredictionResult := ⟨⟨0, 0, 0, 0⟩⟩

/-- Per-model entry collected by `EnsembleModel.predict`
(`{ name, predictions, confidence }`). -/
structure ModelPrediction where
  name : String
  predictions : List ℝ
  confidence : ℝ

/-- Value after `i + 1` iterations of the shared autoregressive loop:
day `i`'s price is day `i - 1`'s price times `1 + change i`. -/
noncomputable def autoreg (lastPrice : ℝ) (change : ℕ → ℝ) : ℕ → ℝ
  | 0 => lastPrice * (1 + change 0)
  | i + 1 => autoreg lastPrice change i * (1 + change (i + 1))

/-- The list `predictions` pushed by the loop, one entry per day. -/
noncomputable def autoregPath (lastPrice : ℝ) (change : ℕ → ℝ) (days : ℕ) : List ℝ :=
  (List.range days).map (autoreg lastPrice change)

/-- `TransformerModel.calculateTrend`: exponentially weighted mean of the
daily returns of the last 14 observations; `0` when fewer than 2. -/
noncomputable def TransformerModel.calculateTrend (prices : List ℝ) : ℝ :=
  if prices.length < 2 then 0
  else
    let recentPrices := prices.drop (prices.length - 14)
    let weightedSum := ∑ i ∈ Finset.Ico 1 recentPrices.length,
      (recentPrices.getD i 0 - recentPrices.getD (i - 1) 0) / recentPrices.getD (i - 1) 0
        * Real.exp (0.1 * (i : ℝ))
    let weightSum := ∑ i ∈ Finset.Ico 1 recentPrices.length, Real.exp (0.1 * (i : ℝ))
    weightedSum / weightSum

/-- `TransformerModel.calculateLongRangeTrend`: monthly-window simple trend,
falling back to `calculateTrend` when fewer than 30 observations. -/
noncomputable def TransformerModel.calculateLongRangeTrend (prices : List ℝ) : ℝ :=
  if prices.length < 30 then TransformerModel.calculateTrend prices
  else
    let longPrices := prices.drop (prices.length - 30)
    (longPrices.getD (longPrices.length - 1) 0 - longPrices.getD 0 0)
      / longPrices.getD 0 0 / 30

/-- `TransformerModel.calculateVolatility`: exponentially weighted standard
deviation of daily returns; `0.02` when fewer than 2 observations. -/
noncomputable def TransformerModel.calculateVolatility (prices : List ℝ) : ℝ :=
  if prices.length < 2 then 0.02
  else
    let returns := (List.range (prices.length - 1)).map
      (fun k => (prices.getD (k + 1) 0 - prices.getD k 0) / prices.getD k 0)
    let weights := (List.range (prices.length - 1)).map
      (fun k => Real.exp (0.1 * ((k : ℝ) + 1)))
    let weightedSum := ((returns.zip weights).map (fun p => p.1 * p.2)).sum
    let weightSum := weights.sum
    let mean := weightedSum / weightSum
    let varianceSum := ((returns.zip weights).map (fun p => (p.1 - mean) ^ 2 * p.2)).sum
    let variance := varianceSum / weightSum
    Real.sqrt variance

/-- Fixed confidence weight of the transformer model. -/
def TransformerModel.confidence : ℝ := 0.45

/-- `TransformerModel.predict`. -/
noncomputable def TransformerModel.predict (rand : ℕ → ℝ) (historicalPrices : List ℝ)
    (days : ℕ) : List ℝ :=
  let lastPrice := historicalPrices.getD (historicalPrices.length - 1) 0
  let trend := TransformerModel.calculateTrend historicalPrices
  let volatility := TransformerModel.calculateVolatility historicalPrices
  let longRangeTrend := TransformerModel.calculateLongRangeTrend historicalPrices
  autoregPath lastPrice (fun i =>
    let dayOfWeekEffect := Real.sin (((i % 7 : ℕ) : ℝ) * Real.pi / 3.5) * 0.002
    let momentumFactor := Real.tanh (trend * 10) * 0.005
    let trendWeight := max 0.2 (1 - (i : ℝ) * 0.05)
    let combinedTrend := trend * trendWeight + longRangeTrend * (1 - trendWeight)
    let randomFactor := (rand i - 0.5) * volatility * 0.4
    combinedTrend + dayOfWeekEffect + momentumFactor + randomFactor) days

/-- `RandomForestModel.calculateTrend`: simple trend over the last 14
observations; `0` when fewer than 10. -/
noncomputable def RandomForestModel.calculateTrend (prices : List ℝ) : ℝ :=
  if prices.length < 10 then 0
  else
    let recentPrices := prices.drop (prices.length - 14)
    (recentPrices.getD (recentPrices.length - 1) 0 - recentPrices.getD 0 0)
      / recentPrices.getD 0 0 / 14

/-- `RandomForestModel.calculateVolatility`: unweighted population standard
deviation of daily returns; `0.02` when fewer than 2 observations. -/
noncomputable def RandomForestModel.calculateVolatility (prices : List ℝ) : ℝ :=
  if prices.length < 2 then 0.02
  else
    let returns := (List.range (prices.length - 1)).map
      (fun k => (prices.getD (k + 1) 0 - prices.getD k 0) / prices.getD k 0)
    let mean := returns.sum / (returns.length : ℝ)
    let variance := (returns.map (fun v => (v - mean) ^ 2)).sum / (returns.length : ℝ)
    Real.sqrt variance

/-- Fixed confidence weight of the random-forest model. -/
def RandomForestModel.confidence : ℝ := 0.25

/-- `RandomForestModel.predict`. -/
noncomputable def RandomForestModel.predict (rand : ℕ → ℝ) (historicalPrices : List ℝ)
    (days : ℕ) : List ℝ :=
  let lastPrice := historicalPrices.getD (historicalPrices.length - 1) 0
  let volatility := RandomForestModel.calculateVolatility historicalPrices * 0.8
  let trend := RandomForestModel.calculateTrend historicalPrices
  autoregPath lastPrice (fun i => trend + (rand i - 0.5) * volatility) days

/-- `XGBoostModel.calculateTrend`: simple trend over the last 10
observations; `0` when fewer than 10. -/
noncomputable def XGBoostModel.calculateTrend (prices : List ℝ) : ℝ :=
  if prices.length < 10 then 0
  else
    let recentPrices := prices.drop (prices.length - 10)
    (recentPrices.getD (recentPrices.length - 1) 0 - recentPrices.getD 0 0)
      / recentPrices.getD 0 0 / 10

/-- `XGBoostModel.calculateVolatility`: identical formula to the
random-forest volatility. -/
noncomputable def XGBoostModel.calculateVolatility (prices : List ℝ) : ℝ :=
  if prices.length < 2 then 0.02
  else
    let returns := (List.range (prices.length - 1)).map
      (fun k => (prices.getD (k + 1) 0 - prices.getD k 0) / prices.getD k 0)
    let mean := returns.sum / (returns.length : ℝ)
    let variance := (returns.map (fun v => (v - mean) ^ 2)).sum / (returns.length : ℝ)
    Real.sqrt variance

/-- Fixed confidence weight of the boosted-tree model. -/
def XGBoostModel.confidence : ℝ := 0.2

/-- `XGBoostModel.predict`. -/
noncomputable def XGBoostModel.predict (rand : ℕ → ℝ) (historicalPrices : List ℝ)
    (days : ℕ) : List ℝ :=
  let lastPrice := historicalPrices.getD (historicalPrices.length - 1) 0
  let volatility := XGBoostModel.calculateVolatility historicalPrices * 0.9
  let trend := XGBoostModel.calculateTrend historicalPrices
  autoregPath lastPrice (fun i =>
    let dayEffect := Real.sin ((i : ℝ) * Real.pi / 7) * 0.005
    trend + dayEffect + (rand i - 0.5) * volatility) days

/-- Fixed confidence weight of the sentiment model. -/
def SentimentModel.confidence : ℝ := 0.1

/-- `SentimentModel.predict`: exogenous mode applies the constant change
`sentimentImpact - 1` every day; stochastic mode draws a per-day random
score `(rand i - 0.4) * 0.02`. -/
noncomputable def SentimentModel.predict (useSentimentAPI : Bool) (sentimentImpact : ℝ)
    (rand : ℕ → ℝ) (historicalPrices : List ℝ) (days : ℕ) : List ℝ :=
  let lastPrice := historicalPrices.getD (historicalPrices.length - 1) 0
  let sentimentFactor := if useSentimentAPI then sentimentImpact else 1
  let sentimentScores := (List.range days).map
    (fun _i => if useSentimentAPI then (0 : ℝ) else (rand _i - 0.4) * 0.02)
  autoregPath lastPrice (fun i =>
    if useSentimentAPI then sentimentFactor - 1 else sentimentScores.getD i 0) days

/-- `BERTModel.calculateTrend`: simple trend over the last 5 observations;
`0` when fewer than 5. -/
noncomputable def BERTModel.calculateTrend (prices : List ℝ) : ℝ :=
  if prices.length < 5 then 0
  else
    let recentPrices := prices.drop (prices.length - 5)
    (recentPrices.getD (recentPrices.length - 1) 0 - recentPrices.getD 0 0)
      / recentPrices.getD 0 0 / 5

/-- Fixed confidence weight of the BERT-like model. -/
def BERTModel.confidence : ℝ := 0.1

/-- `BERTModel.predict`. -/
noncomputable def BERTModel.predict (rand : ℕ → ℝ) (historicalPrices : List ℝ)
    (days : ℕ) : List ℝ :=
  let lastPrice := historicalPrices.getD (historicalPrices.length - 1) 0
  let trend := BERTModel.calculateTrend historicalPrices
  autoregPath lastPrice (fun i => trend * 1.2 + (rand i - 0.5) * 0.02) days

/-- The fixed model list of `EnsembleModel` as name/weight pairs (the
weights are the per-class `confidence` fields). -/
noncomputable def EnsembleModel.models : List (String × ℝ) :=
  [("Transformer", TransformerModel.confidence),
   ("Random Forest", RandomForestModel.confidence),
   ("XGBoost", XGBoostModel.confidence),
   ("VADER Sentiment", SentimentModel.confidence),
   ("BERT NLP", BERTModel.confidence)]

/-- The `modelPredictions` list built at the top of `EnsembleModel.predict`:
each component model is run on the shared random stream, in source order
(the exogenous sentiment model consumes no draws, so the BERT offset
shifts accordingly). -/
noncomputable def EnsembleModel.modelPredictions (rand : ℕ → ℝ) (useSentimentAPI : Bool)
    (sentimentImpact : ℝ) (historicalPrices : List ℝ) (days : ℕ) : List ModelPrediction :=
  [⟨"Transformer", TransformerModel.predict (fun i => rand i) historicalPrices days,
      TransformerModel.confidence⟩,
   ⟨"Random Forest", RandomForestModel.predict (fun i => rand (days + i)) historicalPrices days,
      RandomForestModel.confidence⟩,
   ⟨"XGBoost", XGBoostModel.predict (fun i => rand (2 * days + i)) historicalPrices days,
      XGBoostModel.confidence⟩,
   ⟨"VADER Sentiment", SentimentModel.predict useSentimentAPI sentimentImpact
      (fun i => rand (3 * days + i)) historicalPrices days, SentimentModel.confidence⟩,
   ⟨"BERT NLP", BERTModel.predict
      (fun i => rand (3 * days + (if useSentimentAPI then 0 else days) + i))
      historicalPrices days, BERTModel.confidence⟩]

/-- `EnsembleModel.calculateVariance`: unweighted population variance. -/
noncomputable def EnsembleModel.calculateVariance (values : List ℝ) : ℝ :=
  let mean := values.sum / (values.length : ℝ)
  (values.map (fun v => (v - mean) ^ 2)).sum / (values.length : ℝ)

/-- The same-day component predictions `modelPredictions.map(m => m.predictions[day])`. -/
noncomputable def EnsembleModel.dayPredictions (rand : ℕ → ℝ) (useSentimentAPI : Bool)
    (sentimentImpact : ℝ) (historicalPrices : List ℝ) (days day : ℕ) : List ℝ :=
  (EnsembleModel.modelPredictions rand useSentimentAPI sentimentImpact historicalPrices days).map
    (fun m => m.predictions.getD day 0)

/-- The combined price of one day: weighted sum over the models divided by
the total weight. -/
noncomputable def EnsembleModel.predictedPrice (rand : ℕ → ℝ) (useSentimentAPI : Bool)
    (sentimentImpact : ℝ) (historicalPrices : List ℝ) (days day : ℕ) : ℝ :=
  let ms := EnsembleModel.modelPredictions rand useSentimentAPI sentimentImpact
    historicalPrices days
  let weightedSum := (ms.map (fun m => m.predictions.getD day 0 * m.confidence)).sum
  let totalWeight := (ms.map (fun m => m.confidence)).sum
  weightedSum / totalWeight

/-- Model-disagreement standard deviation of one day. -/
noncomputable def EnsembleModel.stdDev (rand : ℕ → ℝ) (useSentimentAPI : Bool)
    (sentimentImpact : ℝ) (historicalPrices : List ℝ) (days day : ℕ) : ℝ :=
  Real.sqrt (EnsembleModel.calculateVariance
    (EnsembleModel.dayPredictions rand useSentimentAPI sentimentImpact historicalPrices days day))

/-- The day-widening factor `1 + day / days` of the confidence interval. -/
noncomputable def EnsembleModel.dayFactor (day days : ℕ) : ℝ :=
  1 + (day : ℝ) / (days : ℝ)

/-- The `PredictionResult` pushed for one day of the horizon. -/
noncomputable def EnsembleModel.dayResult (rand : ℕ → ℝ) (useSentimentAPI : Bool)
    (sentimentImpact : ℝ) (historicalPrices : List ℝ) (days : ℕ) (volatilityFactor : ℝ)
    (day : ℕ) : PredictionResult :=
  let p := EnsembleModel.predictedPrice rand useSentimentAPI sentimentImpact
    historicalPrices days day
  let s := EnsembleModel.stdDev rand useSentimentAPI sentimentImpact historicalPrices days day
  let confidenceInterval := s * 1.96 * EnsembleModel.dayFactor day days * volatilityFactor
  { predicted := p
    upperBound := p + confidenceInterval
    lowerBound := p - confidenceInterval
    confidence := 1 - s / p }

/-- `EnsembleModel.predict`: run all component models, then combine them
day by day. -/
noncomputable def EnsembleModel.predict (rand : ℕ → ℝ) (useSentimentAPI : Bool)
    (sentimentImpact : ℝ) (historicalPrices : List ℝ) (days : ℕ)
    (volatilityFactor : ℝ) : List PredictionResult :=
  (List.range days).map
    (EnsembleModel.dayResult rand useSentimentAPI sentimentImpact historicalPrices days
      volatilityFactor)

/-- `EnsembleModel.getModelContributions`: each fixed weight normalized by
the reduced sum of all weights, as a percentage. -/
noncomputable def EnsembleModel.getModelContributions : List (String × ℝ) :=
  let totalConfidence := EnsembleModel.models.foldl (fun sum m => sum + m.2) 0
  EnsembleModel.models.map (fun m => (m.1, m.2 / totalConfidence * 100))

/-! ## Helper lemmas -/

lemma mapRange_getD {α : Type} (f : ℕ → α) (d days : ℕ) (hd : d < days) (dflt : α) :
    ((List.range days).map f).getD d dflt = f d := by
  rw [List.getD_eq_getElem?_getD]
  simp [List.getElem?_range, hd]

lemma autoregPath_length (lastPrice : ℝ) (change : ℕ → ℝ) (days : ℕ) :
    (autoregPath lastPrice change days).length = days := by
  simp [autoregPath]

lemma autoregPath_getD (lastPrice : ℝ) (change : ℕ → ℝ) (days d : ℕ) (hd : d < days) :
    (autoregPath lastPrice change days).getD d 0 = autoreg lastPrice change d :=
  mapRange_getD _ d days hd 0

lemma autoreg_const (base c : ℝ) : ∀ d, autoreg base (fun _ => c - 1) d = base * c ^ (d + 1)
  | 0 => by simp [autoreg]
  | d + 1 => by rw [autoreg, autoreg_const base c d]; ring

lemma getD_last_eq_getLast (l : List ℝ) (h : l ≠ []) : l.getD (l.length - 1) 0 = l.getLast h := by
  rw [List.getLast_eq_getElem, List.getD_eq_getElem?_getD]
  simp [List.getElem?_eq_getElem (Nat.sub_lt (List.length_pos.mpr h) one_pos)]

lemma transformer_predict_length (rand : ℕ → ℝ) (prices : List ℝ) (days : ℕ) :
    (TransformerModel.predict rand prices days).length = days := by
  simp [TransformerModel.predict, autoregPath]

lemma randomForest_predict_length (rand : ℕ → ℝ) (prices : List ℝ) (days : ℕ) :
    (RandomForestModel.predict rand prices days).length = days := by
  simp [RandomForestModel.predict, autoregPath]

lemma xgboost_predict_length (rand : ℕ → ℝ) (prices : List ℝ) (days : ℕ) :
    (XGBoostModel.predict rand prices days).length = days := by
  simp [XGBoostModel.predict, autoregPath]

lemma sentiment_predict_length (useAPI : Bool) (impact : ℝ) (rand : ℕ → ℝ)
    (prices : List ℝ) (days : ℕ) :
    (SentimentModel.predict useAPI impact rand prices days).length = days := by
  simp [SentimentModel.predict, autoregPath]

lemma bert_predict_length (rand : ℕ → ℝ) (prices : List ℝ) (days : ℕ) :
    (BERTModel.predict rand prices days).length = days := by
  simp [BERTModel.predict, autoregPath]

lemma ensemble_predict_length (rand : ℕ → ℝ) (useAPI : Bool) (impact : ℝ)
    (prices : List ℝ) (days : ℕ) (vf : ℝ) :
    (EnsembleModel.predict rand useAPI impact prices days vf).length = days := by
  simp [EnsembleModel.predict]

lemma EnsembleModel.predict_getD (rand : ℕ → ℝ) (useAPI : Bool) (impact : ℝ)
    (prices : List ℝ) (days : ℕ) (vf : ℝ) (d : ℕ) (hd : d < days) :
    (EnsembleModel.predict rand useAPI impact prices days vf).getD d default =
      EnsembleModel.dayResult rand useAPI impact prices days vf d :=
  mapRange_getD _ d days hd default

/-! ## Claim theorems -/

/-- C2: for every non-empty price series and every horizon of at least one
day, each component model's `predict` returns a path of exactly `days`
prices, and `EnsembleModel.predict` returns exactly `days` forecast
points. -/
theorem ensemble_and_component_path_lengths (rand : ℕ → ℝ) (useSentimentAPI : Bool)
    (sentimentImpact : ℝ) (historicalPrices : List ℝ) (days : ℕ) (volatilityFactor : ℝ)
    (hne : historicalPrices ≠ []) (hdays : 1 ≤ days) :
    (TransformerModel.predict rand historicalPrices days).length = days ∧
    (RandomForestModel.predict rand historicalPrices days).length = days ∧
    (XGBoostModel.predict rand historicalPrices days).length = days ∧
    (SentimentModel.predict useSentimentAPI sentimentImpact rand historicalPrices days).length
      = days ∧
    (BERTModel.predict rand historicalPrices days).length = days ∧
    (EnsembleModel.predict rand useSentimentAPI sentimentImpact historicalPrices days
      volatilityFactor).length = days :=
  ⟨transformer_predict_length rand historicalPrices days,
   randomForest_predict_length rand historicalPrices days,
   xgboost_predict_length rand historicalPrices days,
   sentiment_predict_length useSentimentAPI sentimentImpact rand historicalPrices days,
   bert_predict_length rand historicalPrices days,
   ensemble_predict_length rand useSentimentAPI sentimentImpact historicalPrices days
     volatilityFactor⟩

/-- Witness for C2 at a concrete input. -/
theorem ensemble_and_component_path_lengths_witness :
    (TransformerModel.predict (fun _ => 0) [100] 7).length = 7 ∧
    (RandomForestModel.predict (fun _ => 0) [100] 7).length = 7 ∧
    (XGBoostModel.predict (fun _ => 0) [100] 7).length = 7 ∧
    (SentimentModel.predict false 1 (fun _ => 0) [100] 7).length = 7 ∧
    (BERTModel.predict (fun _ => 0) [100] 7).length = 7 ∧
    (EnsembleModel.predict (fun _ => 0) false 1 [100] 7 1).length = 7 :=
  ensemble_and_component_path_lengths (fun _ => 0) false 1 [100] 7 1
    (by simp) (by norm_num)

/-- C5: `getModelContributions` normalizes the fixed weights
(0.45, 0.25, 0.20, 0.10, 0.10, summing to 1.10): each reported
percentage equals `weight / 1.1 * 100`, and the percentages sum to
exactly 100. -/
theorem getModelContributions_normalized :
    EnsembleModel.getModelContributions =
      [("Transformer", 0.45 / 1.1 * 100), ("Random Forest", 0.25 / 1.1 * 100),
       ("XGBoost", 0.2 / 1.1 * 100), ("VADER Sentiment", 0.1 / 1.1 * 100),
       ("BERT NLP", 0.1 / 1.1 * 100)] ∧
    (EnsembleModel.getModelContributions.map Prod.snd).sum = 100 := by
  constructor
  · simp only [EnsembleModel.getModelContributions, EnsembleModel.models,
      TransformerModel.confidence, RandomForestModel.confidence, XGBoostModel.confidence,
      SentimentModel.confidence, BERTModel.confidence, List.foldl, List.map]
    norm_num
  · simp only [EnsembleModel.getModelContributions, EnsembleModel.models,
      TransformerModel.confidence, RandomForestModel.confidence, XGBoostModel.confidence,
      SentimentModel.confidence, BERTModel.confidence, List.foldl, List.map, List.sum_cons,
      List.sum_nil]
    norm_num

/-- C6: in exogenous mode with impact multiplier `m`, the sentiment model
multiplies the last historical price by `m` once per day:
`path[d] = lastPrice * m ^ (d + 1)`; in particular for `m = 1.05` and
horizon 7, `path[6] = lastPrice * 1.05 ^ 7`. -/
theorem sentiment_exogenous_path (rand : ℕ → ℝ) (sentimentImpact : ℝ)
    (historicalPrices : List ℝ) (days d : ℕ) (hne : historicalPrices ≠ [])
    (hd : d < days) :
    (SentimentModel.predict true sentimentImpact rand historicalPrices days).getD d 0 =
      historicalPrices.getLast hne * sentimentImpact ^ (d + 1) ∧
    (SentimentModel.predict true 1.05 rand historicalPrices 7).getD 6 0 =
      historicalPrices.getLast hne * 1.05 ^ 7 := by
  have key : ∀ (m : ℝ) (dd ds : ℕ), dd < ds →
      (SentimentModel.predict true m rand historicalPrices ds).getD dd 0 =
        historicalPrices.getLast hne * m ^ (dd + 1) := by
    intro m dd ds hdd
    simp only [SentimentModel.predict, if_true]
    rw [autoregPath_getD _ _ _ _ hdd, getD_last_eq_getLast _ hne]
    exact autoreg_const _ m dd
  exact ⟨key sentimentImpact d days hd, by
    have := key 1.05 6 7 (by norm_num)
    simpa using this⟩

/-- Witness for C6 at a concrete input. -/
theorem sentiment_exogenous_path_witness :
    (SentimentModel.predict true 1.05 (fun _ => 0) [100] 7).getD 6 0 =
      ([100] : List ℝ).getLast (by simp) * 1.05 ^ (6 + 1) ∧
    (SentimentModel.predict true 1.05 (fun _ => 0) [100] 7).getD 6 0 =
      ([100] : List ℝ).getLast (by simp) * 1.05 ^ 7 :=
  sentiment_exogenous_path (fun _ => 0) 1.05 [100] 7 6 (by simp) (by norm_num)

lemma weightedAvg5_bounds (t r x s b : ℝ) :
    min (min (min (min t r) x) s) b ≤ (t * 0.45 + r * 0.25 + x * 0.2 + s * 0.1 + b * 0.1) / 1.1 ∧
    (t * 0.45 + r * 0.25 + x * 0.2 + s * 0.1 + b * 0.1) / 1.1 ≤ max (max (max (max t r) x) s) b := by
  constructor
  · rw [le_div_iff₀ (by norm_num : (0:ℝ) < 1.1)]
    have h1 : min (min (min (min t r) x) s) b ≤ t :=
      (((min_le_left _ _).trans (min_le_left _ _)).trans (min_le_left _ _)).trans (min_le_left _ _)
    have h2 : min (min (min (min t r) x) s) b ≤ r :=
      (((min_le_left _ _).trans (min_le_left _ _)).trans (min_le_left _ _)).trans (min_le_right _ _)
    have h3 : min (min (min (min t r) x) s) b ≤ x :=
      ((min_le_left _ _).trans (min_le_left _ _)).trans (min_le_right _ _)
    have h4 : min (min (min (min t r) x) s) b ≤ s := (min_le_left _ _).trans (min_le_right _ _)
    have h5 : min (min (min (min t r) x) s) b ≤ b := min_le_right _ _
    linarith
  · rw [div_le_iff₀ (by norm_num : (0:ℝ) < 1.1)]
    have h1 : t ≤ max (max (max (max t r) x) s) b :=
      (((le_max_left _ _).trans (le_max_left _ _)).trans (le_max_left _ _)).trans (le_max_left _ _)
    have h2 : r ≤ max (max (max (max t r) x) s) b :=
      (((le_max_right _ _).trans (le_max_left _ _)).trans (le_max_left _ _)).trans (le_max_left _ _)
    have h3 : x ≤ max (max (max (max t r) x) s) b :=
      ((le_max_right _ _).trans (le_max_left _ _)).trans (le_max_left _ _)
    have h4 : s ≤ max (max (max (max t r) x) s) b := (le_max_right _ _).trans (le_max_left _ _)
    have h5 : b ≤ max (max (max (max t r) x) s) b := le_max_right _ _
    linarith

lemma EnsembleModel.predicted_eq_weightedAvg (rand : ℕ → ℝ) (useAPI : Bool) (impact : ℝ)
    (prices : List ℝ) (days d : ℕ) (vf : ℝ) (hd : d < days) :
    ((EnsembleModel.predict rand useAPI impact prices days vf).getD d default).predicted =
      ((TransformerModel.predict (fun i => rand i) prices days).getD d 0 * 0.45 +
       (RandomForestModel.predict (fun i => rand (days + i)) prices days).getD d 0 * 0.25 +
       (XGBoostModel.predict (fun i => rand (2 * days + i)) prices days).getD d 0 * 0.2 +
       (SentimentModel.predict useAPI impact (fun i => rand (3 * days + i)) prices days).getD d 0
         * 0.1 +
       (BERTModel.predict (fun i => rand (3 * days + (if useAPI then 0 else days) + i))
         prices days).getD d 0 * 0.1) / 1.1 := by
  rw [EnsembleModel.predict_getD rand useAPI impact prices days vf d hd]
  simp only [EnsembleModel.dayResult, EnsembleModel.predictedPrice, EnsembleModel.modelPredictions,
    List.map_cons, List.map_nil, List.sum_cons, List.sum_nil,
    TransformerModel.confidence, RandomForestModel.confidence, XGBoostModel.confidence,
    SentimentModel.confidence, BERTModel.confidence]
  ring

/-- C1: for every non-empty price series, horizon at least 1, and day
offset `d` below the horizon, the combined predicted price of
`EnsembleModel.predict` lies between the minimum and the maximum of the
five component models' day-`d` predictions. -/
theorem ensemble_predicted_in_convex_hull (rand : ℕ → ℝ) (useSentimentAPI : Bool)
    (sentimentImpact : ℝ) (historicalPrices : List ℝ) (days d : ℕ) (volatilityFactor : ℝ)
    (hne : historicalPrices ≠ []) (hd : d < days) :
    min (min (min (min
        ((TransformerModel.predict (fun i => rand i) historicalPrices days).getD d 0)
        ((RandomForestModel.predict (fun i => rand (days + i)) historicalPrices days).getD d 0))
        ((XGBoostModel.predict (fun i => rand (2 * days + i)) historicalPrices days).getD d 0))
        ((SentimentModel.predict useSentimentAPI sentimentImpact (fun i => rand (3 * days + i))
          historicalPrices days).getD d 0))
        ((BERTModel.predict (fun i => rand (3 * days + (if useSentimentAPI then 0 else days) + i))
          historicalPrices days).getD d 0) ≤
      ((EnsembleModel.predict rand useSentimentAPI sentimentImpact historicalPrices days
        volatilityFactor).getD d default).predicted ∧
    ((EnsembleModel.predict rand useSentimentAPI sentimentImpact historicalPrices days
        volatilityFactor).getD d default).predicted ≤
      max (max (max (max
        ((TransformerModel.predict (fun i => rand i) historicalPrices days).getD d 0)
        ((RandomForestModel.predict (fun i => rand (days + i)) historicalPrices days).getD d 0))
        ((XGBoostModel.predict (fun i => rand (2 * days + i)) historicalPrices days).getD d 0))
        ((SentimentModel.predict useSentimentAPI sentimentImpact (fun i => rand (3 * days + i))
          historicalPrices days).getD d 0))
        ((BERTModel.predict (fun i => rand (3 * days + (if useSentimentAPI then 0 else days) + i))
          historicalPrices days).getD d 0) := by
  rw [EnsembleModel.predicted_eq_weightedAvg rand useSentimentAPI sentimentImpact
    historicalPrices days d volatilityFactor hd]
  exact weightedAvg5_bounds _ _ _ _ _

/-- Witness for C1 at a concrete input. -/
theorem ensemble_predicted_in_convex_hull_witness :
    min (min (min (min
        ((TransformerModel.predict (fun i => (fun _ => (0:ℝ)) i) [100] 1).getD 0 0)
        ((RandomForestModel.predict (fun i => (fun _ => (0:ℝ)) (1 + i)) [100] 1).getD 0 0))
        ((XGBoostModel.predict (fun i => (fun _ => (0:ℝ)) (2 * 1 + i)) [100] 1).getD 0 0))
        ((SentimentModel.predict false 1 (fun i => (fun _ => (0:ℝ)) (3 * 1 + i)) [100] 1).getD 0 0))
        ((BERTModel.predict (fun i => (fun _ => (0:ℝ)) (3 * 1 + (if false then 0 else 1) + i))
          [100] 1).getD 0 0) ≤
      ((EnsembleModel.predict (fun _ => 0) false 1 [100] 1 1).getD 0 default).predicted ∧
    ((EnsembleModel.predict (fun _ => 0) false 1 [100] 1 1).getD 0 default).predicted ≤
      max (max (max (max
        ((TransformerModel.predict (fun i => (fun _ => (0:ℝ)) i) [100] 1).getD 0 0)
        ((RandomForestModel.predict (fun i => (fun _ => (0:ℝ)) (1 + i)) [100] 1).getD 0 0))
        ((XGBoostModel.predict (fun i => (fun _ => (0:ℝ)) (2 * 1 + i)) [100] 1).getD 0 0))
        ((SentimentModel.predict false 1 (fun i => (fun _ => (0:ℝ)) (3 * 1 + i)) [100] 1).getD 0 0))
        ((BERTModel.predict (fun i => (fun _ => (0:ℝ)) (3 * 1 + (if false then 0 else 1) + i))
          [100] 1).getD 0 0) :=
  ensemble_predicted_in_convex_hull (fun _ => 0) false 1 [100] 1 0 1 (by simp) (by norm_num)

/-- C3: the confidence band of `EnsembleModel.predict` has half-width
`stdDev * 1.96 * (1 + d / days) * volatilityFactor`, entering as
`upperBound = predicted + halfWidth` and `lowerBound = predicted -
halfWidth`; the widening factor `1 + d / days` is strictly increasing in
`d`, equals exactly 1 at `d = 0` (so horizon 1 sees no widening), and is
`2 - 1 / days` on the final day. -/
theorem ensemble_interval_formula (rand : ℕ → ℝ) (useSentimentAPI : Bool)
    (sentimentImpact : ℝ) (historicalPrices : List ℝ) (days d : ℕ) (volatilityFactor : ℝ)
    (hd : d < days) :
    ((EnsembleModel.predict rand useSentimentAPI sentimentImpact historicalPrices days
        volatilityFactor).getD d default).upperBound =
      ((EnsembleModel.predict rand useSentimentAPI sentimentImpact historicalPrices days
        volatilityFactor).getD d default).predicted +
        EnsembleModel.stdDev rand useSentimentAPI sentimentImpact historicalPrices days d * 1.96 *
          (1 + (d : ℝ) / (days : ℝ)) * volatilityFactor ∧
    ((EnsembleModel.predict rand useSentimentAPI sentimentImpact historicalPrices days
        volatilityFactor).getD d default).lowerBound =
      ((EnsembleModel.predict rand useSentimentAPI sentimentImpact historicalPrices days
        volatilityFactor).getD d default).predicted -
        EnsembleModel.stdDev rand useSentimentAPI sentimentImpact historicalPrices days d * 1.96 *
          (1 + (d : ℝ) / (days : ℝ)) * volatilityFactor ∧
    (∀ d1 d2 : ℕ, d1 < d2 → EnsembleModel.dayFactor d1 days < EnsembleModel.dayFactor d2 days) ∧
    EnsembleModel.dayFactor 0 days = 1 ∧
    EnsembleModel.dayFactor (days - 1) days = 2 - 1 / (days : ℝ) := by
  have hdays : 0 < days := lt_of_le_of_lt (Nat.zero_le d) hd
  have hdpos : (0 : ℝ) < days := by exact_mod_cast hdays
  refine ⟨?_, ?_, ?_, ?_, ?_⟩
  · rw [EnsembleModel.predict_getD rand useSentimentAPI sentimentImpact historicalPrices days
      volatilityFactor d hd]
    rfl
  · rw [EnsembleModel.predict_getD rand useSentimentAPI sentimentImpact historicalPrices days
      volatilityFactor d hd]
    rfl
  · intro d1 d2 hlt
    have h12 : (d1 : ℝ) < d2 := by exact_mod_cast hlt
    unfold EnsembleModel.dayFactor
    gcongr
  · simp [EnsembleModel.dayFactor]
  · unfold EnsembleModel.dayFactor
    rw [Nat.cast_sub (by omega : 1 ≤ days)]
    have hne0 : (days : ℝ) ≠ 0 := ne_of_gt hdpos
    field_simp
    ring

/-- Witness for C3 at a concrete input. -/
theorem ensemble_interval_formula_witness :
    ((EnsembleModel.predict (fun _ => 0) false 1 [100] 7 1).getD 2 default).upperBound =
      ((EnsembleModel.predict (fun _ => 0) false 1 [100] 7 1).getD 2 default).predicted +
        EnsembleModel.stdDev (fun _ => 0) false 1 [100] 7 2 * 1.96 *
          (1 + (2 : ℝ) / (7 : ℝ)) * 1 ∧
    ((EnsembleModel.predict (fun _ => 0) false 1 [100] 7 1).getD 2 default).lowerBound =
      ((EnsembleModel.predict (fun _ => 0) false 1 [100] 7 1).getD 2 default).predicted -
        EnsembleModel.stdDev (fun _ => 0) false 1 [100] 7 2 * 1.96 *
          (1 + (2 : ℝ) / (7 : ℝ)) * 1 ∧
    (∀ d1 d2 : ℕ, d1 < d2 → EnsembleModel.dayFactor d1 7 < EnsembleModel.dayFactor d2 7) ∧
    EnsembleModel.dayFactor 0 7 = 1 ∧
    EnsembleModel.dayFactor (7 - 1) 7 = 2 - 1 / (7 : ℝ) :=
  ensemble_interval_formula (fun _ => 0) false 1 [100] 7 2 1 (by norm_num)

/-- C8: the confidence reported by `EnsembleModel.predict` for day `d` is
exactly `1 - stdDev / predictedPrice`, where `stdDev` is the square root
of the unweighted population variance of the same-day component
predictions; no clamping to `[0, 1]` and no guard for
`predictedPrice = 0` is applied. -/
theorem ensemble_confidence_formula (rand : ℕ → ℝ) (useSentimentAPI : Bool)
    (sentimentImpact : ℝ) (historicalPrices : List ℝ) (days d : ℕ) (volatilityFactor : ℝ)
    (hd : d < days) :
    ((EnsembleModel.predict rand useSentimentAPI sentimentImpact historicalPrices days
        volatilityFactor).getD d default).confidence =
      1 - EnsembleModel.stdDev rand useSentimentAPI sentimentImpact historicalPrices days d /
        EnsembleModel.predictedPrice rand useSentimentAPI sentimentImpact historicalPrices
          days d ∧
    EnsembleModel.stdDev rand useSentimentAPI sentimentImpact historicalPrices days d =
      Real.sqrt (EnsembleModel.calculateVariance
        (EnsembleModel.dayPredictions rand useSentimentAPI sentimentImpact historicalPrices
          days d)) := by
  constructor
  · rw [EnsembleModel.predict_getD rand useSentimentAPI sentimentImpact historicalPrices days
      volatilityFactor d hd]
    rfl
  · rfl

/-- Witness for C8 at a concrete input. -/
theorem ensemble_confidence_formula_witness :
    ((EnsembleModel.predict (fun _ => 0) false 1 [100] 7 1).getD 3 default).confidence =
      1 - EnsembleModel.stdDev (fun _ => 0) false 1 [100] 7 3 /
        EnsembleModel.predictedPrice (fun _ => 0) false 1 [100] 7 3 ∧
    EnsembleModel.stdDev (fun _ => 0) false 1 [100] 7 3 =
      Real.sqrt (EnsembleModel.calculateVariance
        (EnsembleModel.dayPredictions (fun _ => 0) false 1 [100] 7 3)) :=
  ensemble_confidence_formula (fun _ => 0) false 1 [100] 7 3 1 (by norm_num)

/-- C9: with the random draw stream fixed, two invocations of
`EnsembleModel.predict` on identical series, horizon and volatility
factor produce identical output sequences: the same predicted price,
lower bound, upper bound and confidence for every day. -/
theorem ensemble_deterministic (rand1 rand2 : ℕ → ℝ) (useSentimentAPI : Bool)
    (sentimentImpact : ℝ) (historicalPrices : List ℝ) (days : ℕ) (volatilityFactor : ℝ)
    (h : ∀ i, rand1 i = rand2 i) :
    EnsembleModel.predict rand1 useSentimentAPI sentimentImpact historicalPrices days
        volatilityFactor =
      EnsembleModel.predict rand2 useSentimentAPI sentimentImpact historicalPrices days
        volatilityFactor ∧
    ∀ d : ℕ,
      ((EnsembleModel.predict rand1 useSentimentAPI sentimentImpact historicalPrices days
          volatilityFactor).getD d default).predicted =
        ((EnsembleModel.predict rand2 useSentimentAPI sentimentImpact historicalPrices days
          volatilityFactor).getD d default).predicted ∧
      ((EnsembleModel.predict rand1 useSentimentAPI sentimentImpact historicalPrices days
          volatilityFactor).getD d default).lowerBound =
        ((EnsembleModel.predict rand2 useSentimentAPI sentimentImpact historicalPrices days
          volatilityFactor).getD d default).lowerBound ∧
      ((EnsembleModel.predict rand1 useSentimentAPI sentimentImpact historicalPrices days
          volatilityFactor).getD d default).upperBound =
        ((EnsembleModel.predict rand2 useSentimentAPI sentimentImpact historicalPrices days
          volatilityFactor).getD d default).upperBound ∧
      ((EnsembleModel.predict rand1 useSentimentAPI sentimentImpact historicalPrices days
          volatilityFactor).getD d default).confidence =
        ((EnsembleModel.predict rand2 useSentimentAPI sentimentImpact historicalPrices days
          volatilityFactor).getD d default).confidence := by
  have hr : rand1 = rand2 := funext h
  subst hr
  exact ⟨rfl, fun _ => ⟨rfl, rfl, rfl, rfl⟩⟩

/-- Witness for C9 at a concrete input. -/
theorem ensemble_deterministic_witness :
    EnsembleModel.predict (fun _ => 0.5) false 1 [100, 101] 7 1 =
      EnsembleModel.predict (fun _ => 0.5) false 1 [100, 101] 7 1 ∧
    ∀ d : ℕ,
      ((EnsembleModel.predict (fun _ => 0.5) false 1 [100, 101] 7 1).getD d default).predicted =
        ((EnsembleModel.predict (fun _ => 0.5) false 1 [100, 101] 7 1).getD d default).predicted ∧
      ((EnsembleModel.predict (fun _ => 0.5) false 1 [100, 101] 7 1).getD d default).lowerBound =
        ((EnsembleModel.predict (fun _ => 0.5) false 1 [100, 101] 7 1).getD d default).lowerBound ∧
      ((EnsembleModel.predict (fun _ => 0.5) false 1 [100, 101] 7 1).getD d default).upperBound =
        ((EnsembleModel.predict (fun _ => 0.5) false 1 [100, 101] 7 1).getD d default).upperBound ∧
      ((EnsembleModel.predict (fun _ => 0.5) false 1 [100, 101] 7 1).getD d default).confidence =
        ((EnsembleModel.predict (fun _ => 0.5) false 1 [100, 101] 7 1).getD d default).confidence :=
  ensemble_deterministic (fun _ => 0.5) (fun _ => 0.5) false 1 [100, 101] 7 1 (fun _ => rfl)

/-- The access obligations of one `EnsembleModel.predict` call, following
the aggregation code: every model reads the series' last element; the
day loop reads each model's path at every day offset of the horizon; the
weighted average divides by the total weight; the disagreement variance
divides by the number of same-day values. -/
def EnsembleModel.accessesOk (rand : ℕ → ℝ) (useSentimentAPI : Bool) (sentimentImpact : ℝ)
    (historicalPrices : List ℝ) (days : ℕ) : Prop :=
  historicalPrices.length - 1 < historicalPrices.length ∧
  (∀ m ∈ EnsembleModel.modelPredictions rand useSentimentAPI sentimentImpact historicalPrices days,
    ∀ day < days, day < m.predictions.length) ∧
  ((EnsembleModel.modelPredictions rand useSentimentAPI sentimentImpact historicalPrices
    days).map (fun m => m.confidence)).sum ≠ 0 ∧
  (∀ day < days, (EnsembleModel.dayPredictions rand useSentimentAPI sentimentImpact
    historicalPrices days day).length ≠ 0)

open Classical in
/-- Checked mirror of `EnsembleModel.predict`: the forecast is produced
only when every array access of the aggregation is in bounds and its
structural divisors are nonzero; otherwise the error branch `none` is
taken. -/
noncomputable def EnsembleModel.predictChecked (rand : ℕ → ℝ) (useSentimentAPI : Bool)
    (sentimentImpact : ℝ) (historicalPrices : List ℝ) (days : ℕ) (volatilityFactor : ℝ) :
    Option (List PredictionResult) :=
  if EnsembleModel.accessesOk rand useSentimentAPI sentimentImpact historicalPrices days
  then some (EnsembleModel.predict rand useSentimentAPI sentimentImpact historicalPrices days
    volatilityFactor)
  else none

/-- C10: for every non-empty price series and every horizon, the array
accesses of the ensemble pipeline are in bounds (the last-price read of
each component model and the day-offset reads of each path) and the
structural divisions of the aggregation are by nonzero values (the
weight total 1.1 and the model count 5), so the checked mirror never
takes its `none` branch. -/
theorem ensemble_accesses_in_bounds (rand : ℕ → ℝ) (useSentimentAPI : Bool)
    (sentimentImpact : ℝ) (historicalPrices : List ℝ) (days : ℕ) (volatilityFactor : ℝ)
    (hne : historicalPrices ≠ []) :
    EnsembleModel.predictChecked rand useSentimentAPI sentimentImpact historicalPrices days
      volatilityFactor =
      some (EnsembleModel.predict rand useSentimentAPI sentimentImpact historicalPrices days
        volatilityFactor) := by
  unfold EnsembleModel.predictChecked
  rw [if_pos]
  refine ⟨Nat.sub_lt (List.length_pos.mpr hne) one_pos, ?_, ?_, ?_⟩
  · intro m hm day hday
    simp only [EnsembleModel.modelPredictions, List.mem_cons, List.not_mem_nil, or_false] at hm
    rcases hm with h | h | h | h | h <;> subst h <;>
      simp [transformer_predict_length, randomForest_predict_length,
        xgboost_predict_length, sentiment_predict_length, bert_predict_length,
        hday]
  · simp only [EnsembleModel.modelPredictions, List.map_cons, List.map_nil, List.sum_cons,
      List.sum_nil, TransformerModel.confidence, RandomForestModel.confidence,
      XGBoostModel.confidence, SentimentModel.confidence, BERTModel.confidence]
    norm_num
  · intro day _
    simp [EnsembleModel.dayPredictions, EnsembleModel.modelPredictions]

/-- Witness for C10 at a concrete input. -/
theorem ensemble_accesses_in_bounds_witness :
    EnsembleModel.predictChecked (fun _ => 0) false 1 [100] 7 1 =
      some (EnsembleModel.predict (fun _ => 0) false 1 [100] 7 1) :=
  ensemble_accesses_in_bounds (fun _ => 0) false 1 [100] 7 1 (by simp)

/-- C4 is refuted: a horizon of 0 is not rejected at the combiner
boundary; the call completes, every component model runs (producing an
empty path) and the aggregation returns the empty forecast, also in the
checked mirror with an explicit error branch; and an empty series is not
rejected either, the call still returning one point per requested day. -/
theorem ensemble_rejects_nothing_counterexample :
    EnsembleModel.predict (fun _ => 0) false 1 [100] 0 1 = [] ∧
    EnsembleModel.predictChecked (fun _ => 0) false 1 [100] 0 1 = some [] ∧
    (EnsembleModel.predict (fun _ => 0) false 1 ([] : List ℝ) 3 1).length = 3 := by
  refine ⟨by simp [EnsembleModel.predict], ?_,
    ensemble_predict_length (fun _ => 0) false 1 [] 3 1⟩
  unfold EnsembleModel.predictChecked
  rw [if_pos]
  · simp [EnsembleModel.predict]
  · refine ⟨by simp, ?_, ?_, ?_⟩
    · intro m _ day hday
      omega
    · simp only [EnsembleModel.modelPredictions, List.map_cons, List.map_nil, List.sum_cons,
        List.sum_nil, TransformerModel.confidence, RandomForestModel.confidence,
        XGBoostModel.confidence, SentimentModel.confidence, BERTModel.confidence]
      norm_num
    · intro day hday
      omega

/-- C4 (amended): `EnsembleModel.predict` performs no input validation:
on every series, horizon and volatility factor the call completes with
exactly one forecast point per requested day, and a horizon of 0 yields
the empty forecast rather than an error. -/
theorem ensemble_no_rejection (rand : ℕ → ℝ) (useSentimentAPI : Bool) (sentimentImpact : ℝ)
    (historicalPrices : List ℝ) (days : ℕ) (volatilityFactor : ℝ) :
    (EnsembleModel.predict rand useSentimentAPI sentimentImpact historicalPrices days
      volatilityFactor).length = days ∧
    EnsembleModel.predict rand useSentimentAPI sentimentImpact historicalPrices 0
      volatilityFactor = [] :=
  ⟨ensemble_predict_length rand useSentimentAPI sentimentImpact historicalPrices days
      volatilityFactor,
   by simp [EnsembleModel.predict]⟩

/-- C7 is refuted: the long-range trend estimator has minimum length 30,
yet on the two-observation series `[100, 110]` (shorter than 30) it
returns the short-range weighted trend `0.1`, not the neutral default
`0`. -/
theorem fallback_not_neutral_counterexample :
    ([100, 110] : List ℝ).length < 30 ∧
    TransformerModel.calculateLongRangeTrend [100, 110] ≠ 0 := by
  constructor
  · norm_num
  · have h : TransformerModel.calculateLongRangeTrend [100, 110] = 0.1 := by
      unfold TransformerModel.calculateLongRangeTrend TransformerModel.calculateTrend
      norm_num
    rw [h]
    norm_num

/-- C7 (amended): each estimator guarded by a minimum length of 2, 5 or
10 observations returns its neutral default on a shorter series (trend
0, volatility 0.02); the long-range trend estimator (minimum length 30)
instead falls back to the short-range weighted trend, which is 0 only
when the series has fewer than 2 observations. -/
theorem estimator_fallback_defaults (prices : List ℝ) :
    (prices.length < 2 →
      TransformerModel.calculateTrend prices = 0 ∧
      TransformerModel.calculateVolatility prices = 0.02 ∧
      RandomForestModel.calculateVolatility prices = 0.02 ∧
      XGBoostModel.calculateVolatility prices = 0.02 ∧
      TransformerModel.calculateLongRangeTrend prices = 0) ∧
    (prices.length < 10 →
      RandomForestModel.calculateTrend prices = 0 ∧ XGBoostModel.calculateTrend prices = 0) ∧
    (prices.length < 5 → BERTModel.calculateTrend prices = 0) ∧
    (prices.length < 30 →
      TransformerModel.calculateLongRangeTrend prices = TransformerModel.calculateTrend prices)
    := by
  refine ⟨?_, ?_, ?_, ?_⟩
  · intro h
    have h30 : prices.length < 30 := by omega
    refine ⟨?_, ?_, ?_, ?_, ?_⟩
    · simp [TransformerModel.calculateTrend, h]
    · simp [TransformerModel.calculateVolatility, h]
    · simp [RandomForestModel.calculateVolatility, h]
    · simp [XGBoostModel.calculateVolatility, h]
    · simp [TransformerModel.calculateLongRangeTrend, TransformerModel.calculateTrend, h, h30]
  · intro h
    exact ⟨by simp [RandomForestModel.calculateTrend, h],
      by simp [XGBoostModel.calculateTrend, h]⟩
  · intro h
    simp [BERTModel.calculateTrend, h]
  · intro h
    simp [TransformerModel.calculateLongRangeTrend, h]

/-- Witness for the amended C7 at a concrete input. -/
theorem estimator_fallback_defaults_witness :
    (TransformerModel.calculateTrend [100] = 0 ∧
     TransformerModel.calculateVolatility [100] = 0.02 ∧
     RandomForestModel.calculateVolatility [100] = 0.02 ∧
     XGBoostModel.calculateVolatility [100] = 0.02 ∧
     TransformerModel.calculateLongRangeTrend [100] = 0) ∧
    (RandomForestModel.calculateTrend [100] = 0 ∧ XGBoostModel.calculateTrend [100] = 0) ∧
    BERTModel.calculateTrend [100] = 0 ∧
    TransformerModel.calculateLongRangeTrend [100] = TransformerModel.calculateTrend [100] :=
  ⟨(estimator_fallback_defaults [100]).1 (by simp),
   (estimator_fallback_defaults [100]).2.1 (by simp),
   (estimator_fallback_defaults [100]).2.2.1 (by simp),
   (estimator_fallback_defaults [100]).2.2.2 (by simp)⟩
